import Mathlib

/-!
Verification of the startup orchestrator in
`src/cmd/dendrite-monolith-server/main.go` (the monolith composition root).

The `main` function is embedded shallowly as a trace of startup events
(`mainTrace`): handle constructions, registrar invocations with the exact
dependency-handle arguments appearing at each call site, route installations
on the default mux, and listener-goroutine launches.  The public-rooms
database connection is the one fallible step of the sequence, so the trace is
parameterised over a `Config` that records whether that connection succeeds,
together with the flag values and metrics settings `main` reads.
-/

namespace Monolith

/-- Basic-auth credentials carried by `cfg.Metrics.BasicAuth`. -/
structure BasicAuth where
  username : String
  password : String
deriving DecidableEq, Repr

/-- The inputs `main` reads: the four command-line flags (lines 42-47 of
main.go, with their declared defaults), the metrics settings from the parsed
configuration, and whether `storage.NewPublicRoomsServerDatabase` (line 75)
succeeds for the configured connection string. -/
structure Config where
  httpBindAddr : String := ":8008"
  httpsBindAddr : String := ":8448"
  certFile : String := ""
  keyFile : String := ""
  metricsEnabled : Bool := false
  metricsBasicAuth : BasicAuth := ⟨"", ""⟩
  publicRoomsOk : Bool := true
deriving DecidableEq, Repr

/-- Modelled from the spec: `basecomponent.HTTPServerTimeout` lives outside
the visible source; the spec only requires it to be a bounded (positive)
write timeout, so it is modelled as an arbitrary positive number of
nanoseconds. -/
def HTTPServerTimeout : Nat := 300000000000

/-- Every handle value that flows between the statements of `main`: the base
component, the shared-infrastructure handles (lines 54-58), the outputs of
the registrars, and the transaction caches.  Each `transactions.New()` call
site produces a distinct cache, identified by its call-site index. -/
inductive Handle
  | base
  | accountDB
  | deviceDB
  | keyDB
  | federation
  | keyRing
  | alias
  | input
  | query
  | eduInputAPI
  | asQuery
  | fedSenderAPI
  | eduProducer
  | cache (callSite : Nat)
  | publicRoomsDB
deriving DecidableEq, Repr

/-- The nine subsystem registrars invoked by `main` (lines 60-80). -/
inductive Registrar
  | roomserver
  | eduserver
  | appservice
  | federationsender
  | clientapi
  | federationapi
  | mediaapi
  | publicroomsapi
  | syncapi
deriving DecidableEq, Repr

/-- Handler values installed on the default mux: the Prometheus handler, the
shared `base.APIMux` router carrying every registrar's routes, and the two
wrappers applied in lines 82-88. -/
inductive HandlerV
  | promhttp
  | apiMux
  | cors (inner : HandlerV)
  | basicAuth (inner : HandlerV) (auth : BasicAuth)
deriving DecidableEq, Repr

/-- One startup event of `main`, in program order. -/
inductive Ev
  | construct (h : Handle)
  | invoke (r : Registrar) (deps : List Handle)
  | connectPublicRooms (ok : Bool)
  | panicf (msg : String)
  | deferClose
  | wrapCORS
  | handleRoute (pattern : String) (h : HandlerV)
  | goListen (tls : Bool) (addr : String) (writeTimeout : Nat)
  | blockForever
deriving DecidableEq, Repr

/-- The trace of `main` (main.go lines 49-116), statement by statement.  Each
`invoke` lists exactly the handle arguments of the corresponding call site.
`transactions.New()` at line 63 yields `cache 0` and the one at line 70
yields `cache 1`.  On public-rooms connection failure, `logrus.Panicf`
unwinds the stack, so the deferred `base.Close()` (line 52) runs and the
trace ends there; on success, route installation and the listener launches
follow, and `select {}` blocks forever (so the defer never runs). -/
def mainTrace (cfg : Config) : List Ev :=
  [ .construct .base,
    .construct .accountDB,
    .construct .deviceDB,
    .construct .keyDB,
    .construct .federation,
    .construct .keyRing,
    .invoke .roomserver [.base],
    .construct .alias, .construct .input, .construct .query,
    .invoke .eduserver [.base],
    .construct .eduInputAPI,
    .construct (.cache 0),
    .invoke .appservice
      [.base, .accountDB, .deviceDB, .federation, .alias, .query, .cache 0],
    .construct .asQuery,
    .invoke .federationsender [.base, .federation, .query],
    .construct .fedSenderAPI,
    .construct (.cache 1),
    .invoke .clientapi
      [.base, .deviceDB, .accountDB, .federation, .keyRing, .alias, .input,
       .query, .eduInputAPI, .asQuery, .cache 1, .fedSenderAPI],
    .construct .eduProducer,
    .invoke .federationapi
      [.base, .accountDB, .deviceDB, .federation, .keyRing, .alias, .input,
       .query, .asQuery, .fedSenderAPI, .eduProducer],
    .invoke .mediaapi [.base, .deviceDB],
    .connectPublicRooms cfg.publicRoomsOk ] ++
  cond cfg.publicRoomsOk
    ([ .construct .publicRoomsDB,
       .invoke .publicroomsapi
         [.base, .deviceDB, .publicRoomsDB, .query, .federation],
       .invoke .syncapi
         [.base, .deviceDB, .accountDB, .query, .federation],
       .wrapCORS ] ++
     cond cfg.metricsEnabled
       [ .handleRoute "/metrics"
           (.basicAuth .promhttp cfg.metricsBasicAuth) ]
       [] ++
     [ .handleRoute "/" (.cors .apiMux),
       .goListen false cfg.httpBindAddr HTTPServerTimeout ] ++
     cond (cfg.certFile != "" && cfg.keyFile != "")
       [ .goListen true cfg.httpsBindAddr HTTPServerTimeout ]
       [] ++
     [ .blockForever ])
    [ .panicf "failed to connect to public rooms db", .deferClose ]

/-- Scans a trace keeping the list of handles constructed so far, and checks
that every handle a registrar invocation passes as a dependency was already
constructed at that point. -/
def checkDeps (avail : List Handle) : List Ev → Bool
  | [] => true
  | .construct h :: rest => checkDeps (h :: avail) rest
  | .invoke _ deps :: rest =>
      deps.all (fun h => avail.contains h) && checkDeps avail rest
  | _ :: rest => checkDeps avail rest

/-- Whether an event is part of assembling the router surface: a registrar
invocation (route registration is its side effect), the cross-origin
wrapping of the merged mux, or an installation on the default mux. -/
def isRouteAssembly : Ev → Bool
  | .invoke _ _ => true
  | .wrapCORS => true
  | .handleRoute _ _ => true
  | _ => false

/-- Checks that no router-assembly event occurs after any listener launch. -/
def assemblyBeforeListeners : List Ev → Bool
  | [] => true
  | .goListen _ _ _ :: rest =>
      rest.all (fun e => !(isRouteAssembly e)) && assemblyBeforeListeners rest
  | _ :: rest => assemblyBeforeListeners rest

/-- Whether the trace launches the TLS listener goroutine. -/
def tlsStarted (t : List Ev) : Bool :=
  t.any (fun e => match e with
    | .goListen tls _ _ => tls
    | _ => false)

/-- Whether the trace launches the plaintext listener goroutine. -/
def plaintextStarted (t : List Ev) : Bool :=
  t.any (fun e => match e with
    | .goListen tls _ _ => !tls
    | _ => false)

/-- Whether the trace launches any listener goroutine. -/
def anyListenerStarted (t : List Ev) : Bool :=
  t.any (fun e => match e with
    | .goListen _ _ _ => true
    | _ => false)

/-- Whether the trace reports a fatal error through `logrus.Panicf`. -/
def hasPanic (t : List Ev) : Bool :=
  t.any (fun e => match e with
    | .panicf _ => true
    | _ => false)

/-- Whether the trace invokes the given registrar. -/
def invokes (t : List Ev) (r : Registrar) : Bool :=
  t.any (fun e => match e with
    | .invoke r2 _ => r2 == r
    | _ => false)

/-- The dependency-handle list the trace passes to the given registrar, if it
is invoked. -/
def invokeDeps (t : List Ev) (r : Registrar) : Option (List Handle) :=
  t.findSome? (fun e => match e with
    | .invoke r2 deps => if r2 == r then some deps else none
    | _ => none)

/-- The transaction-cache call-site indices among a dependency list. -/
def cacheArgs (deps : List Handle) : List Nat :=
  deps.filterMap (fun h => match h with
    | .cache i => some i
    | _ => none)

/-- The routes installed on the default mux by the trace, in order. -/
def registeredRoutes (t : List Ev) : List (String × HandlerV) :=
  t.filterMap (fun e => match e with
    | .handleRoute p h => some (p, h)
    | _ => none)

/-- Go `net/http` mux pattern matching: a pattern ending in a slash matches
every path it prefixes, any other pattern matches only the exact path.
Stated over the underlying character lists. -/
def patternMatches (pat path : String) : Bool :=
  cond (pat.data.getLast? == some '/')
    (List.isPrefixOf pat.data path.data)
    (path == pat)

/-- Go `net/http` mux dispatch: among the registered patterns that match the
path, the longest one wins. -/
def muxResolve (entries : List (String × HandlerV)) (path : String) :
    Option HandlerV :=
  ((entries.filter (fun e => patternMatches e.1 path)).foldl
    (fun best e =>
      match best with
      | none => some e
      | some b => if b.1.length < e.1.length then some e else some b)
    none).map (fun e => e.2)

/-- Whether a handler value is (at its outermost layer) the cross-origin
wrapper. -/
def isCORSWrapped : HandlerV → Bool
  | .cors _ => true
  | _ => false

/-- Whether a handler value is (at its outermost layer) the basic-credential
wrapper. -/
def isBasicAuthWrapped : HandlerV → Bool
  | .basicAuth _ _ => true
  | _ => false

/-- The `http.Server` values built in the two listener goroutines (lines
93-96 and 104-107): only `Addr` and `WriteTimeout` are set, so the `Handler`
field is nil and each server serves `http.DefaultServeMux`. -/
structure Server where
  addr : String
  writeTimeout : Nat
  handler : Option (List (String × HandlerV))
deriving DecidableEq, Repr

/-- The server of the plaintext listener goroutine (lines 93-96). -/
def plainServer (cfg : Config) : Server :=
  ⟨cfg.httpBindAddr, HTTPServerTimeout, none⟩

/-- The server of the TLS listener goroutine (lines 104-107). -/
def tlsServer (cfg : Config) : Server :=
  ⟨cfg.httpsBindAddr, HTTPServerTimeout, none⟩

/-- Go `net/http` semantics: a server with a nil `Handler` serves the
default mux. -/
def effectiveMux (s : Server) (defaultMux : List (String × HandlerV)) :
    List (String × HandlerV) :=
  match s.handler with
  | none => defaultMux
  | some m => m

/-- How a goroutine or the main flow ends: a panic unwinds the stack (so
deferred calls run) while `os.Exit` stops the process at once (deferred
calls do not run). -/
inductive TermKind
  | panicUnwind
  | osExit
deriving DecidableEq, Repr

/-- Go semantics: deferred functions execute during panic unwinding but are
skipped by `os.Exit`. -/
def defersRun : TermKind → Bool
  | .panicUnwind => true
  | .osExit => false

/-- A whole-process termination: how it ends, the (non-zero) exit code, and
whether the cause was logged first. -/
structure ProcessTermination where
  kind : TermKind
  exitCode : Nat
  logged : Bool
deriving DecidableEq, Repr

/-- `logrus.Fatal`: log the error, then `os.Exit(1)`. -/
def logrusFatal : ProcessTermination := ⟨.osExit, 1, true⟩

/-- `logrus.Panicf`: log the message, then panic; the uncaught panic unwinds
through `main` (running its defers) and ends the process with Go's panic
exit code 2. -/
def logrusPanicf : ProcessTermination := ⟨.panicUnwind, 2, true⟩

/-- The body of either listener goroutine after its blocking serve call
returns (lines 99 and 110): the serve error is handed straight to
`logrus.Fatal`; there is no retry loop, restart, or error recovery around
it. -/
def listenerGoroutineResult (serveErr : String) : ProcessTermination :=
  logrusFatal

/-- The termination `main` undergoes when the public-rooms database
connection fails (line 77). -/
def dbFailureTermination : ProcessTermination :=
  logrusPanicf

/-- The all-defaults configuration: flag defaults (lines 42-47), metrics
disabled, public-rooms database reachable. -/
def defaultConfig : Config := {}

/-- A configuration with diagnostics enabled and basic-auth credentials. -/
def metricsConfig : Config :=
  { metricsEnabled := true, metricsBasicAuth := ⟨"admin", "s3cret"⟩ }

/-- A configuration supplying both TLS certificate and key paths. -/
def tlsConfig : Config := { certFile := "cert.pem", keyFile := "key.pem" }

/-- A configuration whose public-rooms database connection fails. -/
def dbFailConfig : Config := { publicRoomsOk := false }

/-- The plaintext listener launches of a trace: address and write timeout of
each `goListen` event with `tls := false`. -/
def plaintextListens (t : List Ev) : List (String × Nat) :=
  t.filterMap (fun e => match e with
    | .goListen tls addr wt => cond tls none (some (addr, wt))
    | _ => none)

/-- The transaction-cache call sites whose cache is passed to both of the
given registrars in the trace. -/
def sharedCaches (t : List Ev) (r1 r2 : Registrar) : List Nat :=
  (cacheArgs ((invokeDeps t r1).getD [])).filter
    (fun i => (cacheArgs ((invokeDeps t r2).getD [])).contains i)

/-- Mux dispatch on the two-entry default mux built when diagnostics are
enabled: any path other than the exact string "/metrics" falls through to
the root pattern. -/
theorem muxResolve_metrics_root (A B : HandlerV) (path : String)
    (h1 : List.isPrefixOf ['/'] path.data = true)
    (h2 : (path == "/metrics") = false) :
    muxResolve [("/metrics", A), ("/", B)] path = some B := by
  have hm : patternMatches "/metrics" path = false := h2
  have hr : patternMatches "/" path = true := h1
  simp [muxResolve, hm, hr]

/-- Mux dispatch on the one-entry default mux built when diagnostics are
disabled: every path reaches the root pattern. -/
theorem muxResolve_root (B : HandlerV) (path : String)
    (h1 : List.isPrefixOf ['/'] path.data = true) :
    muxResolve [("/", B)] path = some B := by
  have hr : patternMatches "/" path = true := h1
  simp [muxResolve, hr]

/-- Claim C1: every registrar invocation in the startup sequence receives
only dependency handles that were already constructed at the moment of the
call, for every configuration — no registrar observes an unset handle. -/
theorem registrar_deps_constructed_first (cfg : Config) :
    checkDeps [] (mainTrace cfg) = true := by
  rcases cfg with ⟨hb, hsb, cf, kf, me, ba, pr⟩
  cases pr <;> cases me <;> cases hc : (cf != "" && kf != "") <;>
    simp only [mainTrace, hc] <;> rfl

/-- Claim C2: all router-surface assembly — registrar invocations (whose
side effect is route registration), the cross-origin wrapping of the merged
mux, and the default-mux installations of the root and diagnostics routes —
happens strictly before any listener goroutine is launched, for every
configuration. -/
theorem router_assembled_before_listeners (cfg : Config) :
    assemblyBeforeListeners (mainTrace cfg) = true := by
  rcases cfg with ⟨hb, hsb, cf, kf, me, ba, pr⟩
  cases pr <;> cases me <;> cases hc : (cf != "" && kf != "") <;>
    simp only [mainTrace, hc] <;> rfl

/-- Claim C3: on any startup that reaches the listener phase, the TLS
listener goroutine is launched if and only if both the certificate path and
the key path are non-empty; when TLS is skipped no error is raised and the
plaintext listener still starts. -/
theorem tls_iff_cert_and_key (cfg : Config) (h : cfg.publicRoomsOk = true) :
    tlsStarted (mainTrace cfg) = (cfg.certFile != "" && cfg.keyFile != "") ∧
    plaintextStarted (mainTrace cfg) = true ∧
    hasPanic (mainTrace cfg) = false := by
  rcases cfg with ⟨hb, hsb, cf, kf, me, ba, pr⟩
  cases h
  cases me <;> cases hc : (cf != "" && kf != "") <;>
    simp only [mainTrace, hc] <;> exact ⟨rfl, rfl, rfl⟩

/-- Witness for C3: the TLS-skipping side at the default configuration,
whose certificate and key paths are both empty. -/
theorem tls_iff_cert_and_key_witness :
    defaultConfig.publicRoomsOk = true ∧
    (tlsStarted (mainTrace defaultConfig) =
       (defaultConfig.certFile != "" && defaultConfig.keyFile != "") ∧
     plaintextStarted (mainTrace defaultConfig) = true ∧
     hasPanic (mainTrace defaultConfig) = false) :=
  ⟨rfl, tls_iff_cert_and_key defaultConfig rfl⟩

/-- Claim C4: when the public-rooms store connection fails, the trace
contains no listener launch, no invocation of the public-rooms registrar or
of the later sync registrar, and the cause is reported through the fatal
panic log call. -/
theorem db_failure_stops_startup (cfg : Config)
    (h : cfg.publicRoomsOk = false) :
    anyListenerStarted (mainTrace cfg) = false ∧
    invokes (mainTrace cfg) .publicroomsapi = false ∧
    invokes (mainTrace cfg) .syncapi = false ∧
    hasPanic (mainTrace cfg) = true := by
  rcases cfg with ⟨hb, hsb, cf, kf, me, ba, pr⟩
  cases h
  exact ⟨rfl, rfl, rfl, rfl⟩

/-- Witness for C4 at a concrete failing configuration. -/
theorem db_failure_stops_startup_witness :
    dbFailConfig.publicRoomsOk = false ∧
    (anyListenerStarted (mainTrace dbFailConfig) = false ∧
     invokes (mainTrace dbFailConfig) .publicroomsapi = false ∧
     invokes (mainTrace dbFailConfig) .syncapi = false ∧
     hasPanic (mainTrace dbFailConfig) = true) :=
  ⟨rfl, db_failure_stops_startup dbFailConfig rfl⟩

/-- Claim C5: whatever error a listener's blocking serve call returns, the
goroutine body hands it straight to `logrus.Fatal`: the error is logged and
the whole process exits with a non-zero code via `os.Exit` — there is no
retry, no restart, and (since `os.Exit` stops every goroutine) no continued
operation of the other listener. -/
theorem listener_failure_fatal (e : String) :
    listenerGoroutineResult e = logrusFatal ∧
    (listenerGoroutineResult e).kind = .osExit ∧
    (listenerGoroutineResult e).exitCode ≠ 0 ∧
    (listenerGoroutineResult e).logged = true :=
  ⟨rfl, rfl, Nat.one_ne_zero, rfl⟩

/-- Claim C6: the diagnostics route "/metrics" is present on the default mux
exactly when diagnostics are enabled; when present its handler is the
basic-auth wrapper (not the cross-origin wrapper) around the Prometheus
handler, and every other path dispatches to the cross-origin-wrapped merged
router. -/
theorem metrics_route_gating (cfg : Config) (h : cfg.publicRoomsOk = true) :
    ((registeredRoutes (mainTrace cfg)).lookup "/metrics" =
      cond cfg.metricsEnabled
        (some (.basicAuth .promhttp cfg.metricsBasicAuth)) none) ∧
    (cfg.metricsEnabled = true →
      muxResolve (registeredRoutes (mainTrace cfg)) "/metrics" =
        some (.basicAuth .promhttp cfg.metricsBasicAuth)) ∧
    isBasicAuthWrapped (.basicAuth .promhttp cfg.metricsBasicAuth) = true ∧
    isCORSWrapped (.basicAuth .promhttp cfg.metricsBasicAuth) = false ∧
    isCORSWrapped (.cors .apiMux) = true ∧
    (∀ path, List.isPrefixOf ['/'] path.data = true →
      (path == "/metrics") = false →
      muxResolve (registeredRoutes (mainTrace cfg)) path =
        some (.cors .apiMux)) := by
  rcases cfg with ⟨hb, hsb, cf, kf, me, ba, pr⟩
  cases h
  cases me <;> cases hc : (cf != "" && kf != "") <;> simp only [mainTrace, hc]
  case false.false =>
    exact ⟨rfl, fun hme => Bool.noConfusion hme, rfl, rfl, rfl,
      fun path h1 h2 => muxResolve_root _ path h1⟩
  case false.true =>
    exact ⟨rfl, fun hme => Bool.noConfusion hme, rfl, rfl, rfl,
      fun path h1 h2 => muxResolve_root _ path h1⟩
  case true.false =>
    exact ⟨rfl, fun _ => rfl, rfl, rfl, rfl,
      fun path h1 h2 => muxResolve_metrics_root _ _ path h1 h2⟩
  case true.true =>
    exact ⟨rfl, fun _ => rfl, rfl, rfl, rfl,
      fun path h1 h2 => muxResolve_metrics_root _ _ path h1 h2⟩

/-- Witness for C6: with diagnostics enabled, "/metrics" dispatches to the
basic-auth-wrapped Prometheus handler and a representative other path
dispatches to the cross-origin-wrapped merged router. -/
theorem metrics_route_gating_witness :
    metricsConfig.publicRoomsOk = true ∧
    muxResolve (registeredRoutes (mainTrace metricsConfig)) "/metrics" =
      some (.basicAuth .promhttp metricsConfig.metricsBasicAuth) ∧
    muxResolve (registeredRoutes (mainTrace metricsConfig)) "/foo" =
      some (.cors .apiMux) :=
  ⟨rfl, (metrics_route_gating metricsConfig rfl).2.1 rfl,
   (metrics_route_gating metricsConfig rfl).2.2.2.2.2 "/foo"
     (by decide) (by decide)⟩

/-- Counterexample to claim C7 as stated: at the default configuration no
transaction cache is passed to both the application-service registrar and
the client-facing-API registrar — `transactions.New()` is called afresh at
each of the two call sites (lines 63 and 70), so no single cache instance is
shared between them. -/
theorem shared_cache_counterexample :
    ¬ ∃ i,
      i ∈ cacheArgs ((invokeDeps (mainTrace defaultConfig) .appservice).getD []) ∧
      i ∈ cacheArgs ((invokeDeps (mainTrace defaultConfig) .clientapi).getD []) := by
  rintro ⟨i, h1, h2⟩
  have e1 : cacheArgs
      ((invokeDeps (mainTrace defaultConfig) .appservice).getD []) = [0] := rfl
  have e2 : cacheArgs
      ((invokeDeps (mainTrace defaultConfig) .clientapi).getD []) = [1] := rfl
  rw [e1] at h1
  rw [e2] at h2
  simp at h1 h2
  omega

/-- Amended claim C7: the orchestrator constructs a fresh transaction cache
per consumer — the application-service registrar receives the cache from
call site 0 and the client-facing-API registrar the distinct cache from call
site 1, and the two registrars share no cache instance. -/
theorem fresh_cache_per_consumer (cfg : Config) :
    cacheArgs ((invokeDeps (mainTrace cfg) .appservice).getD []) = [0] ∧
    cacheArgs ((invokeDeps (mainTrace cfg) .clientapi).getD []) = [1] ∧
    sharedCaches (mainTrace cfg) .appservice .clientapi = [] :=
  ⟨rfl, rfl, rfl⟩

/-- Claim C8: when certificate and key are configured and startup succeeds,
both listener goroutines are launched; both `http.Server` values leave the
`Handler` field nil, so both serve the default mux and every request path
dispatches to the same handler through either listener. -/
theorem listeners_serve_same_surface (cfg : Config)
    (h1 : cfg.publicRoomsOk = true)
    (h2 : (cfg.certFile != "" && cfg.keyFile != "") = true) :
    plaintextStarted (mainTrace cfg) = true ∧
    tlsStarted (mainTrace cfg) = true ∧
    (plainServer cfg).handler = none ∧
    (tlsServer cfg).handler = none ∧
    (∀ path,
      muxResolve (effectiveMux (plainServer cfg)
        (registeredRoutes (mainTrace cfg))) path =
      muxResolve (effectiveMux (tlsServer cfg)
        (registeredRoutes (mainTrace cfg))) path) := by
  rcases cfg with ⟨hb, hsb, cf, kf, me, ba, pr⟩
  cases h1
  cases me <;> simp only [mainTrace, h2] <;>
    exact ⟨rfl, rfl, rfl, rfl, fun path => rfl⟩

/-- Witness for C8 at a configuration with certificate and key paths,
instantiated at a concrete request path. -/
theorem listeners_serve_same_surface_witness :
    tlsConfig.publicRoomsOk = true ∧
    (tlsConfig.certFile != "" && tlsConfig.keyFile != "") = true ∧
    plaintextStarted (mainTrace tlsConfig) = true ∧
    tlsStarted (mainTrace tlsConfig) = true ∧
    muxResolve (effectiveMux (plainServer tlsConfig)
      (registeredRoutes (mainTrace tlsConfig))) "/x" =
      muxResolve (effectiveMux (tlsServer tlsConfig)
        (registeredRoutes (mainTrace tlsConfig))) "/x" :=
  ⟨rfl, by decide, (listeners_serve_same_surface tlsConfig rfl (by decide)).1,
   (listeners_serve_same_surface tlsConfig rfl (by decide)).2.1,
   (listeners_serve_same_surface tlsConfig rfl (by decide)).2.2.2.2 "/x"⟩

/-- Claim C9: on any startup that reaches the listener phase, exactly one
plaintext listener is launched, at the configured plaintext address with the
positive write timeout; the address default is ":8008". -/
theorem plaintext_listener_once (cfg : Config)
    (h : cfg.publicRoomsOk = true) :
    plaintextListens (mainTrace cfg) =
      [(cfg.httpBindAddr, HTTPServerTimeout)] ∧
    0 < HTTPServerTimeout ∧
    defaultConfig.httpBindAddr = ":8008" := by
  rcases cfg with ⟨hb, hsb, cf, kf, me, ba, pr⟩
  cases h
  cases me <;> cases hc : (cf != "" && kf != "") <;>
    simp only [mainTrace, hc] <;> exact ⟨rfl, by decide, rfl⟩

/-- Witness for C9 at the default configuration. -/
theorem plaintext_listener_once_witness :
    defaultConfig.publicRoomsOk = true ∧
    (plaintextListens (mainTrace defaultConfig) =
       [(defaultConfig.httpBindAddr, HTTPServerTimeout)] ∧
     0 < HTTPServerTimeout ∧
     defaultConfig.httpBindAddr = ":8008") :=
  ⟨rfl, plaintext_listener_once defaultConfig rfl⟩

/-- Claim C10: on public-rooms connection failure the trace ends, right
after the failed connection (event index 23), with the logged panic followed
by the deferred `base.Close()` that panic unwinding still runs, and no
listener was launched; the panic termination runs defers, while a listener
serve failure terminates through `os.Exit`, which skips the deferred
Close. -/
theorem panic_runs_defer_exit_skips_defer (cfg : Config)
    (h : cfg.publicRoomsOk = false) :
    (mainTrace cfg).drop 23 =
      [.panicf "failed to connect to public rooms db", .deferClose] ∧
    anyListenerStarted (mainTrace cfg) = false ∧
    defersRun dbFailureTermination.kind = true ∧
    (∀ e, defersRun (listenerGoroutineResult e).kind = false) := by
  rcases cfg with ⟨hb, hsb, cf, kf, me, ba, pr⟩
  cases h
  exact ⟨rfl, rfl, rfl, fun e => rfl⟩

/-- Witness for C10 at a concrete failing configuration, with the
listener-failure side instantiated at a concrete serve error. -/
theorem panic_runs_defer_exit_skips_defer_witness :
    dbFailConfig.publicRoomsOk = false ∧
    (mainTrace dbFailConfig).drop 23 =
      [.panicf "failed to connect to public rooms db", .deferClose] ∧
    defersRun dbFailureTermination.kind = true ∧
    defersRun (listenerGoroutineResult "listen tcp :8008: bind: address already in use").kind = false :=
  ⟨rfl, (panic_runs_defer_exit_skips_defer dbFailConfig rfl).1,
   (panic_runs_defer_exit_skips_defer dbFailConfig rfl).2.2.1,
   (panic_runs_defer_exit_skips_defer dbFailConfig rfl).2.2.2
     "listen tcp :8008: bind: address already in use"⟩

end Monolith
